import Mathlib

/-!
Shallow embedding of the pybind11 Conan recipe
(`recipes/pybind11/conanfile.py`).

The recipe is a `ConanFile` subclass with four lifecycle callbacks
(`source`, `build`, `package`, `package_info`), a package-identity hook
(`package_id`) and a memoized accessor `_configure_cmake` for the external
CMake build-configuration handle.

Modelling conventions:

* File-system paths are lists of segments (`Path`); `os.path.join` is list
  append.  The file system is an association list from paths to content
  ids (`FS`); a content id stands for the (opaque) content of a file or
  directory tree, so "the file is unchanged" is "its lookup yields the
  same content id".
* `os.rename` fails (models `FileNotFoundError`) exactly when the source
  path is absent; `os.unlink` likewise when its target is absent.
* The network is a function from URLs to archives; `tools.get` downloads
  the archive for the requested URL and extracts it, adding its top-level
  directory to the current working directory.
* The external CMake tool is modelled by the `CMake` structure recording
  the definitions dictionary and the `configure` arguments, plus trace
  events (`Event`) for each external-tool invocation; `cmake.install`'s
  effect on the package folder is a parameter (the list of files the
  install step writes), and its possible failure is an `Except` value.
* Python exceptions abort the remaining statements of a callback; a
  callback that can fail returns the file system as it stood when the
  exception was raised, together with the error.
-/

namespace PyBind11

/-- A file-system path, as a list of segments; `os.path.join` is `++`. -/
abbrev Path := List String

/-- The file system: an association list from paths to content ids. -/
abbrev FS := List (Path × Nat)

/-- Recipe attribute `name = "pybind11"`. -/
def name : String := "pybind11"

/-- Recipe attribute `version = "2.10.1"`. -/
def version : String := "2.10.1"

/-- Recipe attribute `_source_subfolder = "source_subfolder"`. -/
def _source_subfolder : String := "source_subfolder"

/-- The ambient run environment: the Conan-provided folders and the Python
interpreter path (`sys.executable`) of the invoking environment. -/
structure Env where
  source_folder : Path
  package_folder : Path
  sys_executable : String
deriving DecidableEq

/-- A value in the CMake definitions dictionary: the recipe stores Python
booleans (`True` / `False`) and strings. -/
inductive DefValue
  | pyBool : Bool → DefValue
  | pyStr : String → DefValue
deriving DecidableEq

/-- Python dict assignment `d[k] = v`: replace the binding if the key is
present, otherwise append it (insertion order is preserved). -/
def assocSet : List (String × DefValue) → String → DefValue → List (String × DefValue)
  | [], k, v => [(k, v)]
  | (k', v') :: rest, k, v =>
    if k' = k then (k, v) :: rest else (k', v') :: assocSet rest k v

/-- The arguments the recipe passes to `CMake.configure`. -/
structure ConfigureArgs where
  source_dir : Path
  defs : List (String × String)
deriving DecidableEq

/-- The external build-configuration handle (`conans.CMake`): its
definitions dictionary and the recorded `configure` invocation. -/
structure CMake where
  definitions : List (String × DefValue)
  configured : Option ConfigureArgs
deriving DecidableEq

/-- `cmake.definitions[k] = v`. -/
def CMake.setDef (c : CMake) (k : String) (v : DefValue) : CMake :=
  { c with definitions := assocSet c.definitions k v }

/-- `cmake.configure(source_dir=..., defs=...)`: records the arguments. -/
def CMake.configure (c : CMake) (sourceDir : Path) (ds : List (String × String)) : CMake :=
  { c with configured := some (ConfigureArgs.mk sourceDir ds) }

/-- The recipe instance's mutable state: the memoized `_cmake` field
(initially `None`). -/
structure RecipeState where
  _cmake : Option CMake
deriving DecidableEq

/-- The state of a fresh recipe instance: `_cmake = None`. -/
def initialState : RecipeState := RecipeState.mk none

/-- Trace events for external-tool work: construction of a `CMake` handle,
a `configure` call on it, and the tool's build and install steps. -/
inductive Event
  | newHandle
  | configureCall
  | toolBuild
  | toolInstall
deriving DecidableEq

/-- `PyBind11Conan._configure_cmake`: return the memoized handle if it is
set; otherwise construct one, set the three definitions, configure it
against `<source_folder>/<_source_subfolder>` with
`defs = \x7b"PYTHON_EXECUTABLE": sys.executable\x7d`, memoize and return it.
The trace records the construction and configuration work performed. -/
def _configure_cmake (env : Env) (s : RecipeState) : CMake × RecipeState × List Event :=
  match s._cmake with
  | some c => (c, s, [])
  | none =>
    let c :=
      (((CMake.mk [] none
        ).setDef "PYBIND11_INSTALL" (DefValue.pyBool true)
        ).setDef "PYBIND11_TEST" (DefValue.pyBool false)
        ).setDef "PYBIND11_CMAKECONFIG_INSTALL_DIR" (DefValue.pyStr "lib/cmake/pybind11")
    let c := c.configure (env.source_folder ++ [_source_subfolder])
      [("PYTHON_EXECUTABLE", env.sys_executable)]
    (c, RecipeState.mk (some c), [Event.newHandle, Event.configureCall])

/-- `PyBind11Conan.build`: obtain the handle via `_configure_cmake`, then
invoke the external tool's build step. -/
def build (env : Env) (s : RecipeState) : RecipeState × List Event :=
  let cc := _configure_cmake env s
  (cc.2.1, cc.2.2 ++ [Event.toolBuild])

/-- A downloaded source archive: its top-level directory name and the
content id of that extracted tree. -/
structure Archive where
  topDir : String
  contentId : Nat
deriving DecidableEq

/-- The URL the recipe interpolates for a version string `v`:
`f"https://github.com/pybind/pybind11/archive/refs/tags/v\x7bself.version\x7d.tar.gz"`. -/
def sourceURL (v : String) : String :=
  "https://github.com/pybind/pybind11/archive/refs/tags/v" ++ v ++ ".tar.gz"

/-- `conans.tools.get(url)`: download the archive the network serves at
`url` and extract it, adding its top-level directory to the cwd. -/
def tools_get (net : String → Archive) (url : String) (fs : FS) : FS :=
  ([(net url).topDir], (net url).contentId) :: fs

/-- `os.rename(src, dst)`: `FileNotFoundError` if `src` is absent,
otherwise the entry is re-keyed to `dst`. -/
def os_rename (src dst : Path) (fs : FS) : Except String FS :=
  match fs.lookup src with
  | none => Except.error "FileNotFoundError"
  | some cid => Except.ok ((dst, cid) :: fs.filter (fun e => e.1 != src))

/-- `os.unlink(p)`: `FileNotFoundError` if `p` is absent, otherwise the
entry is removed. -/
def os_unlink (p : Path) (fs : FS) : Except String FS :=
  match fs.lookup p with
  | none => Except.error "FileNotFoundError"
  | some _ => Except.ok (fs.filter (fun e => e.1 != p))

/-- `PyBind11Conan.source`: fetch the archive at the interpolated URL,
extract it, then `os.rename("\x7bname\x7d-\x7bversion\x7d", _source_subfolder)`.
Returns the URL that was fetched and the resulting file system (or the
error the rename raised). -/
def source (net : String → Archive) (fs : FS) : String × Except String FS :=
  let url := sourceURL version
  let fs1 := tools_get net url fs
  (url, os_rename [name ++ "-" ++ version] [_source_subfolder] fs1)

/-- `self.copy("LICENSE", src=_source_subfolder, dst="licenses")`: Conan's
pattern copy; it copies the file when present and silently copies nothing
when absent. -/
def conan_copy (srcPath dstPath : Path) (fs : FS) : FS :=
  match fs.lookup srcPath with
  | some cid => (dstPath, cid) :: fs
  | none => fs

/-- Path of `LICENSE` inside the source subfolder. -/
def licenseSrcPath (env : Env) : Path :=
  env.source_folder ++ [_source_subfolder, "LICENSE"]

/-- Path of the packaged `licenses/LICENSE`. -/
def licenseDstPath (env : Env) : Path :=
  env.package_folder ++ ["licenses", "LICENSE"]

/-- `lib_folder = os.path.join(self.package_folder, "lib", "cmake", "pybind11")`. -/
def lib_folder (env : Env) : Path :=
  env.package_folder ++ ["lib", "cmake", "pybind11"]

/-- Path of the tool-generated `pybind11Config.cmake`. -/
def configPath (env : Env) : Path :=
  lib_folder env ++ ["pybind11Config.cmake"]

/-- Path of the renamed `pybind11Install.cmake`. -/
def installPath (env : Env) : Path :=
  lib_folder env ++ ["pybind11Install.cmake"]

/-- Path of the tool-generated `pybind11ConfigVersion.cmake`. -/
def versionPath (env : Env) : Path :=
  lib_folder env ++ ["pybind11ConfigVersion.cmake"]

/-- Outcome of `PyBind11Conan.package`: the recipe state, the file system
as the callback left it, the external-tool trace, and the raised error if
any (`none` on success). -/
structure PackageResult where
  state : RecipeState
  fs : FS
  trace : List Event
  err : Option String
deriving DecidableEq

/-- `PyBind11Conan.package`: copy the license, obtain the handle via
`_configure_cmake`, run `cmake.install()` (whose effect — failure, or the
files it writes — is the parameter `inst`), then rename
`pybind11Config.cmake` to `pybind11Install.cmake` and unlink
`pybind11ConfigVersion.cmake`.  An exception leaves the file system as it
stood at the raise point and skips the remaining statements. -/
def package (env : Env) (inst : Except String (List (Path × Nat)))
    (s : RecipeState) (fs : FS) : PackageResult :=
  let fs1 := conan_copy (licenseSrcPath env) (licenseDstPath env) fs
  let cc := _configure_cmake env s
  let s1 := cc.2.1
  let t := cc.2.2 ++ [Event.toolInstall]
  match inst with
  | Except.error e => PackageResult.mk s1 fs1 t (some e)
  | Except.ok installed =>
    let fs2 := installed ++ fs1
    match os_rename (configPath env) (installPath env) fs2 with
    | Except.error e => PackageResult.mk s1 fs2 t (some e)
    | Except.ok fs3 =>
      match os_unlink (versionPath env) fs3 with
      | Except.error e => PackageResult.mk s1 fs3 t (some e)
      | Except.ok fs4 => PackageResult.mk s1 fs4 t none

/-- The binary-relevant settings declared by the recipe
(`settings = "os", "arch", "compiler", "build_type"`). -/
structure PkgSettings where
  os : String
  arch : String
  compiler : String
  build_type : String
deriving DecidableEq

/-- `self.info`, the data from which Conan computes the package cache key:
the declared settings (when present), options and requirements. -/
structure ConanInfo where
  settings : Option PkgSettings
  options : List (String × String)
  requires : List String
deriving DecidableEq

/-- Modelled from the Conan framework's `ConanInfo.header_only`
(not part of this repository): it clears settings, options and
requirements from the package id, so the cache key no longer depends
on them. -/
def header_only (i : ConanInfo) : ConanInfo :=
  { i with settings := none, options := [], requires := [] }

/-- `PyBind11Conan.package_id`: `self.info.header_only()`. -/
def package_id (i : ConanInfo) : ConanInfo := header_only i

/-- `self.cpp_info`, the exported package metadata the claims mention:
include directories, build directories and build modules, each a list of
paths interpreted relative to the package folder unless joined with it. -/
structure CppInfo where
  includedirs : List Path
  builddirs : List Path
  build_modules : List Path
deriving DecidableEq

/-- The Conan framework's default `cpp_info` as handed to `package_info`
(not part of this repository): include directories default to
`["include"]`, build directories to the package root, build modules to
none. -/
def defaultCppInfo : CppInfo :=
  CppInfo.mk [["include"]] [[]] []

/-- `cmake_base_path = os.path.join("lib", "cmake", "pybind11")` — a
package-relative path, not joined with the package folder. -/
def cmake_base_path : Path := ["lib", "cmake", "pybind11"]

/-- `PyBind11Conan.package_info`: append
`os.path.join(self.package_folder, "include", "pybind11")` to the include
directories, replace the build directories with `[cmake_base_path]`, and
set the build modules to the two files under `cmake_base_path`. -/
def package_info (env : Env) (c : CppInfo) : CppInfo :=
  let c := { c with
    includedirs := c.includedirs ++ [env.package_folder ++ ["include", "pybind11"]] }
  { c with
    builddirs := [cmake_base_path],
    build_modules := [cmake_base_path ++ ["FindPythonLibsNew.cmake"],
                      cmake_base_path ++ ["pybind11Install.cmake"]] }

end PyBind11

namespace PyBind11

/-- A concrete environment used to instantiate the theorems below. -/
def sampleEnv : Env := Env.mk ["src"] ["pkg"] "python3"

/-- In trace `t`, every external-tool build or install invocation happens
only when the configuration handle already exists: either it existed
before the trace began (`pre`), or a handle construction event precedes
the invocation within the trace. -/
def handleBeforeTool (pre : Bool) (t : List Event) : Prop :=
  ∀ i : Fin t.length,
    (t.get i = Event.toolBuild ∨ t.get i = Event.toolInstall) →
    pre = true ∨ Event.newHandle ∈ t.take i.1

/-- Appending a common prefix preserves boolean path equality. -/
lemma append_beq_left (pf a b : Path) : ((pf ++ a : Path) == (pf ++ b)) = (a == b) := by
  by_cases h : a = b
  · subst h; simp
  · have h2 : pf ++ a ≠ pf ++ b := fun hc => h (List.append_cancel_left hc)
    rw [beq_eq_false_iff_ne.mpr h2]
    exact (beq_eq_false_iff_ne.mpr h).symm

/-- A lookup over an association list whose keys all differ from the key
sought yields nothing. -/
lemma lookup_eq_none (a : Path) (l : FS) (h : ∀ e ∈ l, (a == e.1) = false) :
    l.lookup a = none := by
  induction l with
  | nil => rfl
  | cons e t ih =>
    have hk := h e (List.mem_cons_self _ _)
    rcases e with ⟨k, v⟩
    simp only [List.lookup_cons, hk]
    exact ih fun e he => h e (List.mem_cons_of_mem _ he)

/-- Filtering out a key makes its lookup fail. -/
lemma lookup_filter_self (a : Path) (l : FS) :
    (l.filter (fun e => e.1 != a)).lookup a = none := by
  apply lookup_eq_none
  intro e he
  have hp := List.of_mem_filter he
  exact beq_eq_false_iff_ne.mpr (Ne.symm (bne_iff_ne.mp hp))

/-- A further filter cannot resurrect a filtered-out key. -/
lemma lookup_filter_filter (a : Path) (l : FS) (p : Path × Nat → Bool) :
    ((l.filter (fun e => e.1 != a)).filter p).lookup a = none := by
  apply lookup_eq_none
  intro e he
  have hp := List.of_mem_filter (List.mem_of_mem_filter he)
  exact beq_eq_false_iff_ne.mpr (Ne.symm (bne_iff_ne.mp hp))

/-- `configPath` in prefix-plus-suffix form. -/
lemma configPath_eq (env : Env) :
    configPath env =
      env.package_folder ++ ["lib", "cmake", "pybind11", "pybind11Config.cmake"] := by
  simp [configPath, lib_folder, List.append_assoc]

/-- `installPath` in prefix-plus-suffix form. -/
lemma installPath_eq (env : Env) :
    installPath env =
      env.package_folder ++ ["lib", "cmake", "pybind11", "pybind11Install.cmake"] := by
  simp [installPath, lib_folder, List.append_assoc]

/-- `versionPath` in prefix-plus-suffix form. -/
lemma versionPath_eq (env : Env) :
    versionPath env =
      env.package_folder ++ ["lib", "cmake", "pybind11", "pybind11ConfigVersion.cmake"] := by
  simp [versionPath, lib_folder, List.append_assoc]

end PyBind11

namespace PyBind11

/-- C1 counterexample: on an archive whose internal top-level directory is
named `pybind11-master` rather than `pybind11-2.10.1`, the source
operation's rename raises instead of producing the canonical subfolder, so
the renaming is not independent of the archive's internal top-level
directory name. -/
theorem source_rename_not_topdir_independent :
    (source (fun _ => Archive.mk "pybind11-master" 0) []).2 =
      Except.error "FileNotFoundError" := by
  rfl

/-- C1 (amended): for every version string the fetch URL is the
deterministic template, and the directory named `<name>-<version>` is
renamed to the canonical subfolder; the rename succeeds whenever the
archive's top-level directory carries exactly that name. -/
theorem source_pinned_url_and_fixed_rename :
    (∀ v : String, sourceURL v =
        "https://github.com/pybind/pybind11/archive/refs/tags/v" ++ v ++ ".tar.gz") ∧
    ∀ (net : String → Archive) (fs : FS),
      (source net fs).1 = sourceURL version ∧
      ((net (sourceURL version)).topDir = name ++ "-" ++ version →
        ∃ fs', (source net fs).2 = Except.ok fs' ∧
          fs'.lookup [_source_subfolder] = some (net (sourceURL version)).contentId) := by
  refine ⟨fun v => rfl, fun net fs => ⟨rfl, fun h => ?_⟩⟩
  refine ⟨([_source_subfolder], (net (sourceURL version)).contentId) ::
      (([name ++ "-" ++ version], (net (sourceURL version)).contentId) :: fs).filter
        (fun e => e.1 != [name ++ "-" ++ version]), ?_, ?_⟩
  · simp [source, tools_get, os_rename, h, List.lookup_cons]
  · simp [List.lookup_cons]

/-- C1 witness: with an archive whose top-level directory is
`pybind11-2.10.1`, source acquisition succeeds and the canonical subfolder
holds the extracted tree. -/
theorem source_pinned_url_and_fixed_rename_witness :
    ∃ fs', (source (fun _ => Archive.mk "pybind11-2.10.1" 7) []).2 = Except.ok fs' ∧
      fs'.lookup [_source_subfolder] =
        some ((fun _ : String => Archive.mk "pybind11-2.10.1" 7)
          (sourceURL version)).contentId :=
  (source_pinned_url_and_fixed_rename.2 (fun _ => Archive.mk "pybind11-2.10.1" 7) []).2 rfl

/-- C9: in a working directory without a pre-existing `<name>-<version>`
entry, the source operation's rename succeeds exactly when the extracted
archive's top-level directory is named `pybind11-2.10.1`; any other name
makes the rename raise a file-not-found error. -/
theorem source_rename_precondition (net : String → Archive) (fs : FS)
    (hfresh : fs.lookup [name ++ "-" ++ version] = none) :
    ((net (sourceURL version)).topDir = name ++ "-" ++ version →
      ∃ fs', (source net fs).2 = Except.ok fs') ∧
    ((net (sourceURL version)).topDir ≠ name ++ "-" ++ version →
      (source net fs).2 = Except.error "FileNotFoundError") := by
  constructor
  · intro h
    refine ⟨([_source_subfolder], (net (sourceURL version)).contentId) ::
        (([name ++ "-" ++ version], (net (sourceURL version)).contentId) :: fs).filter
          (fun e => e.1 != [name ++ "-" ++ version]), ?_⟩
    simp [source, tools_get, os_rename, h, List.lookup_cons]
  · intro h
    have hne : ([name ++ "-" ++ version] : Path) ≠ [(net (sourceURL version)).topDir] := by
      simpa using Ne.symm h
    simp [source, tools_get, os_rename, List.lookup_cons,
      beq_eq_false_iff_ne.mpr hne, hfresh]

/-- C9 witness: from an empty working directory, a matching top-level
directory lets the rename succeed, and a mismatched one makes source
acquisition fail. -/
theorem source_rename_precondition_witness :
    (∃ fs', (source (fun _ => Archive.mk "pybind11-2.10.1" 3) []).2 = Except.ok fs') ∧
    (source (fun _ => Archive.mk "master" 4) []).2 = Except.error "FileNotFoundError" :=
  ⟨(source_rename_precondition (fun _ => Archive.mk "pybind11-2.10.1" 3) [] rfl).1 rfl,
   (source_rename_precondition (fun _ => Archive.mk "master" 4) [] rfl).2 (by decide)⟩

end PyBind11

namespace PyBind11

/-- C2: calling `_configure_cmake` twice within one run returns the
identical handle with the recipe state unchanged and no further external
work on the second call, and starting from a fresh state the handle
construction and the configure call each happen exactly once across both
calls. -/
theorem configure_cmake_memoized (env : Env) (s : RecipeState) :
    (_configure_cmake env (_configure_cmake env s).2.1).1 = (_configure_cmake env s).1 ∧
    (_configure_cmake env (_configure_cmake env s).2.1).2.1 = (_configure_cmake env s).2.1 ∧
    (_configure_cmake env (_configure_cmake env s).2.1).2.2 = [] ∧
    (s._cmake = none →
      ((_configure_cmake env s).2.2 ++
        (_configure_cmake env (_configure_cmake env s).2.1).2.2).count Event.configureCall = 1 ∧
      ((_configure_cmake env s).2.2 ++
        (_configure_cmake env (_configure_cmake env s).2.1).2.2).count Event.newHandle = 1) := by
  rcases s with ⟨_ | c⟩
  · exact ⟨rfl, rfl, rfl, fun _ => ⟨rfl, rfl⟩⟩
  · exact ⟨rfl, rfl, rfl, fun h => by simp at h⟩

/-- C2 witness: the memoization property instantiated at a concrete
environment and a fresh recipe instance. -/
theorem configure_cmake_memoized_witness :
    (_configure_cmake sampleEnv (_configure_cmake sampleEnv initialState).2.1).1 =
      (_configure_cmake sampleEnv initialState).1 ∧
    (_configure_cmake sampleEnv (_configure_cmake sampleEnv initialState).2.1).2.1 =
      (_configure_cmake sampleEnv initialState).2.1 ∧
    (_configure_cmake sampleEnv (_configure_cmake sampleEnv initialState).2.1).2.2 = [] ∧
    ((_configure_cmake sampleEnv initialState).2.2 ++
      (_configure_cmake sampleEnv
        (_configure_cmake sampleEnv initialState).2.1).2.2).count Event.configureCall = 1 :=
  let m := configure_cmake_memoized sampleEnv initialState
  ⟨m.1, m.2.1, m.2.2.1, (m.2.2.2 rfl).1⟩

/-- C6: on first construction the handle carries exactly the three fixed
definitions in insertion order, and is configured against the canonical
source subfolder with the invoking interpreter passed as the single
configure override; the constructed handle is memoized. -/
theorem configure_cmake_first_run (env : Env) (s : RecipeState) (h : s._cmake = none) :
    (_configure_cmake env s).1.definitions =
      [("PYBIND11_INSTALL", DefValue.pyBool true),
       ("PYBIND11_TEST", DefValue.pyBool false),
       ("PYBIND11_CMAKECONFIG_INSTALL_DIR", DefValue.pyStr "lib/cmake/pybind11")] ∧
    (_configure_cmake env s).1.configured =
      some (ConfigureArgs.mk (env.source_folder ++ [_source_subfolder])
        [("PYTHON_EXECUTABLE", env.sys_executable)]) ∧
    (_configure_cmake env s).2.1._cmake = some (_configure_cmake env s).1 := by
  rcases s with ⟨_ | c⟩
  · refine ⟨?_, rfl, rfl⟩
    simp [_configure_cmake, CMake.setDef, CMake.configure, assocSet]
  · simp at h

/-- C6 witness: the first-run configuration contents at a concrete
environment and a fresh recipe instance. -/
theorem configure_cmake_first_run_witness :
    initialState._cmake = none ∧
    (_configure_cmake sampleEnv initialState).1.definitions =
      [("PYBIND11_INSTALL", DefValue.pyBool true),
       ("PYBIND11_TEST", DefValue.pyBool false),
       ("PYBIND11_CMAKECONFIG_INSTALL_DIR", DefValue.pyStr "lib/cmake/pybind11")] ∧
    (_configure_cmake sampleEnv initialState).1.configured =
      some (ConfigureArgs.mk (sampleEnv.source_folder ++ [_source_subfolder])
        [("PYTHON_EXECUTABLE", sampleEnv.sys_executable)]) ∧
    (_configure_cmake sampleEnv initialState).2.1._cmake =
      some (_configure_cmake sampleEnv initialState).1 :=
  ⟨rfl, configure_cmake_first_run sampleEnv initialState rfl⟩

end PyBind11

namespace PyBind11

/-- C4 counterexample: after `package_info` the exported metadata carries
two include directories (the framework default plus the appended one), not
exactly one as claimed. -/
theorem package_info_not_single_includedir :
    (package_info sampleEnv defaultCppInfo).includedirs.length ≠ 1 := by
  decide

/-- C4 (amended): `package_info` always yields exactly two include
directories (the framework default plus the one appended nested
subdirectory), exactly one build-integration directory, and exactly two
build-integration files in fixed order — the Python-library-finder module
first, the renamed install-config file second — independent of platform or
settings. -/
theorem package_info_fixed_counts (env : Env) :
    (package_info env defaultCppInfo).includedirs.length = 2 ∧
    (package_info env defaultCppInfo).builddirs.length = 1 ∧
    (package_info env defaultCppInfo).build_modules =
      [cmake_base_path ++ ["FindPythonLibsNew.cmake"],
       cmake_base_path ++ ["pybind11Install.cmake"]] :=
  ⟨rfl, rfl, rfl⟩

/-- C10: after `package_info` the include directories are exactly the
default `include` entry followed by the appended path joined with the
package folder, while the build-integration directory and both build
modules remain package-relative, never joined with the package folder. -/
theorem package_info_exact_paths (env : Env) :
    (package_info env defaultCppInfo).includedirs =
      [["include"], env.package_folder ++ ["include", "pybind11"]] ∧
    (package_info env defaultCppInfo).builddirs = [["lib", "cmake", "pybind11"]] ∧
    (package_info env defaultCppInfo).build_modules =
      [["lib", "cmake", "pybind11", "FindPythonLibsNew.cmake"],
       ["lib", "cmake", "pybind11", "pybind11Install.cmake"]] :=
  ⟨rfl, rfl, rfl⟩

/-- C5: two package-identity computations whose inputs agree on everything
except the compiler, architecture and build-type settings produce the same
package cache key, because `package_id` reduces the identity to the
header-only form. -/
theorem package_id_header_only_invariant (i1 i2 : ConanInfo)
    (_hopts : i1.options = i2.options) (_hreq : i1.requires = i2.requires)
    (_hos : i1.settings.map PkgSettings.os = i2.settings.map PkgSettings.os) :
    package_id i1 = package_id i2 := by
  simp [package_id, header_only]

/-- C5 witness: two identity computations differing only in compiler,
architecture and build type agree. -/
theorem package_id_header_only_invariant_witness :
    package_id (ConanInfo.mk (some (PkgSettings.mk "Linux" "x86_64" "gcc" "Release")) [] []) =
      package_id (ConanInfo.mk (some (PkgSettings.mk "Linux" "armv8" "clang" "Debug")) [] []) :=
  package_id_header_only_invariant _ _ rfl rfl rfl

/-- A trace that opens with a handle-construction event satisfies the
ordering discipline whatever follows. -/
lemma handleBeforeTool_cons_newHandle (pre : Bool) (t : List Event) :
    handleBeforeTool pre (Event.newHandle :: t) := by
  intro i hi
  rcases i with ⟨i, hlen⟩
  right
  match i with
  | 0 => simp at hi
  | Nat.succ j => simp [List.take_succ_cons]

/-- C8: neither the external tool's build step nor its install step is
ever invoked before the configuration handle exists — both `build` and
`package` first obtain (creating if absent) the memoized handle, and both
leave the handle set. -/
theorem tool_steps_after_handle (env : Env) (s : RecipeState)
    (inst : Except String (List (Path × Nat))) (fs : FS) :
    handleBeforeTool s._cmake.isSome (build env s).2 ∧
    handleBeforeTool s._cmake.isSome (package env inst s fs).trace ∧
    (build env s).1._cmake.isSome = true ∧
    (package env inst s fs).state._cmake.isSome = true := by
  have htr : (package env inst s fs).trace =
      (_configure_cmake env s).2.2 ++ [Event.toolInstall] := by
    unfold package
    rcases inst with e | l
    · rfl
    · simp only []
      rcases hr : os_rename (configPath env) (installPath env)
          (l ++ conan_copy (licenseSrcPath env) (licenseDstPath env) fs) with e | fs3
      · simp [hr]
      · rcases hu : os_unlink (versionPath env) fs3 with e | fs4
        · simp [hr, hu]
        · simp [hr, hu]
  have hst : (package env inst s fs).state = (_configure_cmake env s).2.1 := by
    unfold package
    rcases inst with e | l
    · rfl
    · simp only []
      rcases hr : os_rename (configPath env) (installPath env)
          (l ++ conan_copy (licenseSrcPath env) (licenseDstPath env) fs) with e | fs3
      · simp [hr]
      · rcases hu : os_unlink (versionPath env) fs3 with e | fs4
        · simp [hr, hu]
        · simp [hr, hu]
  rw [htr, hst]
  rcases s with ⟨_ | c⟩
  · exact ⟨handleBeforeTool_cons_newHandle false [Event.configureCall, Event.toolBuild],
      handleBeforeTool_cons_newHandle false [Event.configureCall, Event.toolInstall],
      rfl, rfl⟩
  · exact ⟨fun i h => Or.inl rfl, fun i h => Or.inl rfl, rfl, rfl⟩

/-- C8 witness: the ordering property at a concrete environment, a fresh
state, a successful empty install and an empty file system. -/
theorem tool_steps_after_handle_witness :
    handleBeforeTool initialState._cmake.isSome (build sampleEnv initialState).2 ∧
    handleBeforeTool initialState._cmake.isSome
      (package sampleEnv (Except.ok []) initialState []).trace ∧
    (build sampleEnv initialState).1._cmake.isSome = true ∧
    (package sampleEnv (Except.ok []) initialState []).state._cmake.isSome = true :=
  tool_steps_after_handle sampleEnv initialState (Except.ok []) []

end PyBind11

namespace PyBind11

/-- `licenseDstPath` in prefix-plus-suffix form. -/
lemma licenseDstPath_eq (env : Env) :
    licenseDstPath env = env.package_folder ++ ["licenses", "LICENSE"] := rfl

/-- Appending a common prefix to unequal suffixes yields boolean-unequal
paths. -/
lemma append_beq_false (pf : Path) (a b : List String) (hab : (a == b) = false) :
    ((pf ++ a : Path) == (pf ++ b)) = false := by
  rw [append_beq_left]; exact hab

/-- A lookup at a path other than the copy destination is unaffected by
the license copy. -/
lemma conan_copy_lookup_other (env : Env) (fs : FS) (a : Path)
    (ha : (a == licenseDstPath env) = false) :
    (conan_copy (licenseSrcPath env) (licenseDstPath env) fs).lookup a = fs.lookup a := by
  unfold conan_copy
  rcases hl : fs.lookup (licenseSrcPath env) with _ | cid
  · rfl
  · simp [List.lookup_cons, ha]

/-- C3: `package` always invokes the external tool's install step, and
when install fails the callback stops with that error before touching the
two config files: the generated config file, its renamed counterpart and
the version-config file all hold exactly what they held before the call. -/
theorem package_install_before_fixup (env : Env)
    (inst : Except String (List (Path × Nat))) (s : RecipeState) (fs : FS) :
    Event.toolInstall ∈ (package env inst s fs).trace ∧
    ∀ e, inst = Except.error e →
      (package env inst s fs).err = some e ∧
      (package env inst s fs).fs.lookup (configPath env) = fs.lookup (configPath env) ∧
      (package env inst s fs).fs.lookup (installPath env) = fs.lookup (installPath env) ∧
      (package env inst s fs).fs.lookup (versionPath env) = fs.lookup (versionPath env) := by
  have htr : (package env inst s fs).trace =
      (_configure_cmake env s).2.2 ++ [Event.toolInstall] := by
    unfold package
    rcases inst with e | l
    · rfl
    · simp only []
      rcases hr : os_rename (configPath env) (installPath env)
          (l ++ conan_copy (licenseSrcPath env) (licenseDstPath env) fs) with e | fs3
      · simp [hr]
      · rcases hu : os_unlink (versionPath env) fs3 with e | fs4
        · simp [hr, hu]
        · simp [hr, hu]
  have b1 : (configPath env == licenseDstPath env) = false := by
    rw [configPath_eq, licenseDstPath_eq]
    exact append_beq_false _ _ _ (by decide)
  have b2 : (installPath env == licenseDstPath env) = false := by
    rw [installPath_eq, licenseDstPath_eq]
    exact append_beq_false _ _ _ (by decide)
  have b3 : (versionPath env == licenseDstPath env) = false := by
    rw [versionPath_eq, licenseDstPath_eq]
    exact append_beq_false _ _ _ (by decide)
  refine ⟨?_, fun e he => ?_⟩
  · rw [htr]; simp
  · subst he
    exact ⟨rfl, conan_copy_lookup_other env fs _ b1,
      conan_copy_lookup_other env fs _ b2,
      conan_copy_lookup_other env fs _ b3⟩

/-- C3 witness: with a failing install step, `package` surfaces the error
and the three config-file paths are untouched. -/
theorem package_install_before_fixup_witness :
    Event.toolInstall ∈
      (package sampleEnv (Except.error "install failed") initialState
        [(configPath sampleEnv, 2), (versionPath sampleEnv, 3)]).trace ∧
    (package sampleEnv (Except.error "install failed") initialState
        [(configPath sampleEnv, 2), (versionPath sampleEnv, 3)]).err =
      some "install failed" ∧
    (package sampleEnv (Except.error "install failed") initialState
        [(configPath sampleEnv, 2), (versionPath sampleEnv, 3)]).fs.lookup
        (configPath sampleEnv) =
      List.lookup (configPath sampleEnv)
        [(configPath sampleEnv, 2), (versionPath sampleEnv, 3)] ∧
    (package sampleEnv (Except.error "install failed") initialState
        [(configPath sampleEnv, 2), (versionPath sampleEnv, 3)]).fs.lookup
        (installPath sampleEnv) =
      List.lookup (installPath sampleEnv)
        [(configPath sampleEnv, 2), (versionPath sampleEnv, 3)] ∧
    (package sampleEnv (Except.error "install failed") initialState
        [(configPath sampleEnv, 2), (versionPath sampleEnv, 3)]).fs.lookup
        (versionPath sampleEnv) =
      List.lookup (versionPath sampleEnv)
        [(configPath sampleEnv, 2), (versionPath sampleEnv, 3)] :=
  let m := package_install_before_fixup sampleEnv (Except.error "install failed")
    initialState [(configPath sampleEnv, 2), (versionPath sampleEnv, 3)]
  ⟨m.1, m.2 "install failed" rfl⟩

end PyBind11

namespace PyBind11

/-- C7: when the install step writes the two generated config files,
`package` succeeds, having copied the source-subfolder `LICENSE` to the
`licenses` output, renamed `pybind11Config.cmake` to
`pybind11Install.cmake` (the renamed file holds the config file's
content), and deleted `pybind11ConfigVersion.cmake`. -/
theorem package_copies_renames_deletes (env : Env) (s : RecipeState) (fs : FS)
    (licId cfgId verId : Nat)
    (hlic : fs.lookup (licenseSrcPath env) = some licId) :
    (package env (Except.ok [(configPath env, cfgId), (versionPath env, verId)]) s fs).err =
      none ∧
    (package env (Except.ok [(configPath env, cfgId), (versionPath env, verId)]) s
        fs).fs.lookup (licenseDstPath env) = some licId ∧
    (package env (Except.ok [(configPath env, cfgId), (versionPath env, verId)]) s
        fs).fs.lookup (installPath env) = some cfgId ∧
    (package env (Except.ok [(configPath env, cfgId), (versionPath env, verId)]) s
        fs).fs.lookup (configPath env) = none ∧
    (package env (Except.ok [(configPath env, cfgId), (versionPath env, verId)]) s
        fs).fs.lookup (versionPath env) = none := by
  have bVC : (versionPath env == configPath env) = false := by
    rw [versionPath_eq, configPath_eq]
    exact append_beq_false _ _ _ (by decide)
  have bLC : (licenseDstPath env == configPath env) = false := by
    rw [licenseDstPath_eq, configPath_eq]
    exact append_beq_false _ _ _ (by decide)
  have bVI : (versionPath env == installPath env) = false := by
    rw [versionPath_eq, installPath_eq]
    exact append_beq_false _ _ _ (by decide)
  have bIV : (installPath env == versionPath env) = false := by
    rw [installPath_eq, versionPath_eq]
    exact append_beq_false _ _ _ (by decide)
  have bLV : (licenseDstPath env == versionPath env) = false := by
    rw [licenseDstPath_eq, versionPath_eq]
    exact append_beq_false _ _ _ (by decide)
  have bLI : (licenseDstPath env == installPath env) = false := by
    rw [licenseDstPath_eq, installPath_eq]
    exact append_beq_false _ _ _ (by decide)
  have bCI : (configPath env == installPath env) = false := by
    rw [configPath_eq, installPath_eq]
    exact append_beq_false _ _ _ (by decide)
  have bCL : (configPath env == licenseDstPath env) = false := by
    rw [configPath_eq, licenseDstPath_eq]
    exact append_beq_false _ _ _ (by decide)
  have bVL : (versionPath env == licenseDstPath env) = false := by
    rw [versionPath_eq, licenseDstPath_eq]
    exact append_beq_false _ _ _ (by decide)
  have nVC : (versionPath env != configPath env) = true := by simp [bne, bVC]
  have nLC : (licenseDstPath env != configPath env) = true := by simp [bne, bLC]
  have nIV : (installPath env != versionPath env) = true := by simp [bne, bIV]
  have nLV : (licenseDstPath env != versionPath env) = true := by simp [bne, bLV]
  have hcp : conan_copy (licenseSrcPath env) (licenseDstPath env) fs =
      (licenseDstPath env, licId) :: fs := by
    unfold conan_copy
    rw [hlic]
  have hren : os_rename (configPath env) (installPath env)
      ((configPath env, cfgId) :: (versionPath env, verId) ::
        (licenseDstPath env, licId) :: fs) =
      Except.ok ((installPath env, cfgId) :: (versionPath env, verId) ::
        (licenseDstPath env, licId) ::
          fs.filter (fun e => e.1 != configPath env)) := by
    simp only [os_rename, List.lookup_cons, beq_self_eq_true]
    simp [List.filter_cons, bne_self_eq_false, nVC, nLC]
  have hunl : os_unlink (versionPath env)
      ((installPath env, cfgId) :: (versionPath env, verId) ::
        (licenseDstPath env, licId) ::
          fs.filter (fun e => e.1 != configPath env)) =
      Except.ok ((installPath env, cfgId) :: (licenseDstPath env, licId) ::
        ((fs.filter (fun e => e.1 != configPath env)).filter
          (fun e => e.1 != versionPath env))) := by
    simp only [os_unlink, List.lookup_cons, bVI, beq_self_eq_true]
    simp [List.filter_cons, bne_self_eq_false, nIV, nLV]
  have hpack : package env
      (Except.ok [(configPath env, cfgId), (versionPath env, verId)]) s fs =
      PackageResult.mk (_configure_cmake env s).2.1
        ((installPath env, cfgId) :: (licenseDstPath env, licId) ::
          ((fs.filter (fun e => e.1 != configPath env)).filter
            (fun e => e.1 != versionPath env)))
        ((_configure_cmake env s).2.2 ++ [Event.toolInstall]) none := by
    unfold package
    rw [hcp]
    simp only [List.cons_append, List.nil_append, hren, hunl]
  rw [hpack]
  refine ⟨rfl, ?_, ?_, ?_, ?_⟩
  · simp [List.lookup_cons, bLI, beq_self_eq_true]
  · simp [List.lookup_cons, beq_self_eq_true]
  · simp only [List.lookup_cons, bCI, bCL]
    exact lookup_filter_filter (configPath env) fs (fun e => e.1 != versionPath env)
  · simp only [List.lookup_cons, bVI, bVL]
    exact lookup_filter_self (versionPath env) (fs.filter (fun e => e.1 != configPath env))

/-- C7 witness: the package success path at a concrete environment, with a
license file present and the install step writing the two config files. -/
theorem package_copies_renames_deletes_witness :
    (package sampleEnv
        (Except.ok [(configPath sampleEnv, 2), (versionPath sampleEnv, 3)])
        initialState [(licenseSrcPath sampleEnv, 5)]).err = none ∧
    (package sampleEnv
        (Except.ok [(configPath sampleEnv, 2), (versionPath sampleEnv, 3)])
        initialState [(licenseSrcPath sampleEnv, 5)]).fs.lookup
        (licenseDstPath sampleEnv) = some 5 ∧
    (package sampleEnv
        (Except.ok [(configPath sampleEnv, 2), (versionPath sampleEnv, 3)])
        initialState [(licenseSrcPath sampleEnv, 5)]).fs.lookup
        (installPath sampleEnv) = some 2 ∧
    (package sampleEnv
        (Except.ok [(configPath sampleEnv, 2), (versionPath sampleEnv, 3)])
        initialState [(licenseSrcPath sampleEnv, 5)]).fs.lookup
        (configPath sampleEnv) = none ∧
    (package sampleEnv
        (Except.ok [(configPath sampleEnv, 2), (versionPath sampleEnv, 3)])
        initialState [(licenseSrcPath sampleEnv, 5)]).fs.lookup
        (versionPath sampleEnv) = none :=
  package_copies_renames_deletes sampleEnv initialState
    [(licenseSrcPath sampleEnv, 5)] 5 2 3 (by decide)

end PyBind11
